import Mathlib

/-!
# Verification of the RadioRA2/Lutron automation daemon core

This file gives a shallow embedding, in Lean 4, of the parts of the
automation daemon (`radiora2.cpp`, `lutron.cpp`) that the specification's
claims talk about, and proves or refutes each claim against it.

Conventions of the embedding:
* C++ `std::map<int, T>` becomes an association list `List (Int × T)`;
  `find` is first-match lookup and in-place mutation maps over the entry.
* C++ `int` arithmetic becomes `Int`; C++ integer division truncates
  toward zero, which is `Int.tdiv`.
* Callbacks (`std::function`) become opaque `Nat` tokens; invoking a
  callback is recorded as an emission in a result list, in the order the
  source invokes or schedules (`Event::runLater`) it.
* Commands sent to the gateway (`#OUTPUT,...`, `#DEVICE,...,9,...`)
  become small structures collected in an emission list.
-/

set_option autoImplicit false

namespace Automation

/-- First-match lookup in an integer-keyed association list
(the embedding of `std::map<int,T>::find`). -/
def alookup {α : Type} (m : List (Int × α)) (k : Int) : Option α :=
  (m.find? (fun p => p.1 = k)).map Prod.snd

/-- Update the value stored under key `k` (the embedding of in-place
mutation of `map[k]`; entries with other keys are untouched). -/
def aupdate {α : Type} (m : List (Int × α)) (k : Int) (f : α → α) :
    List (Int × α) :=
  m.map (fun p => if p.1 = k then (p.1, f p.2) else p)

namespace RadioRA2

/-- `RadioRA2::LedLogic` (only the values the core distinguishes). -/
inductive LedLogic where
  | unknown
  | monitor
  | scene
  | raiseLower
  | shadeToggle
deriving DecidableEq, Repr

/-- `RadioRA2::ButtonType`. -/
inductive ButtonType where
  | unknown
  | toggle
  | advancedToggle
  | singleAction
  | lower
  | raise
deriving DecidableEq, Repr

/-- `RadioRA2::Assignment`: output id and level
(level `-1` marks a relay pulse). -/
structure Assignment where
  id : Int
  level : Int
deriving DecidableEq, Repr

/-- `RadioRA2::Component`: a keypad button with its optional LED.
Listener callbacks are opaque tokens. -/
structure Component where
  id : Int
  led : Int
  name : String
  logic : LedLogic
  btype : ButtonType
  assignments : List Assignment
  ledState : Bool
  listeners : List Nat
deriving DecidableEq, Repr

/-- `RadioRA2::Device`: a keypad together with the ephemeral
dim-emulation state that `buttonPressed` mutates. -/
structure Device where
  id : Int
  name : String
  components : List (Int × Component)
  lastButton : Int
  dimDirection : Int
  startOfDim : Int
  firstTap : Int
  numTaps : Int
  released : Int
  startingLevels : List (Int × Int)
  /-- the source's `on` field (renamed: `on` is notation in Lean). -/
  onState : Bool
  supportsReleaseEvent : Bool
deriving DecidableEq, Repr

/-- `RadioRA2::Output`: a gateway-native fixture. -/
structure Output where
  id : Int
  name : String
  level : Int
deriving DecidableEq, Repr

/-- `RadioRA2::NamedOutput`: a daemon-local virtual output; the sink
callback is an opaque token. -/
structure NamedOutput where
  name : String
  level : Int
  cb : Nat
deriving DecidableEq, Repr

/-- The controller's schema store: `devices_`, `outputs_`, `namedOutput_`. -/
structure Controller where
  devices : List (Int × Device)
  outputs : List (Int × Output)
  namedOutput : List NamedOutput
deriving DecidableEq, Repr

/-- A `#OUTPUT,<id>,1,<LL.DD>` command sent to the gateway. -/
structure OutputCmd where
  id : Int
  level : Int
deriving DecidableEq, Repr

/-- A `#DEVICE,<dev>,<led>,9,<0|1>` command sent to the gateway. -/
structure LedCmd where
  dev : Int
  led : Int
  state : Bool
deriving DecidableEq, Repr

/-- An invocation of a virtual output's sink callback: the index of the
`NamedOutput` entry and the (unclamped) level passed to the callback. -/
structure SinkCall where
  index : Nat
  level : Int
deriving DecidableEq, Repr

/-- `RadioRA2::getCurrentLevel`: negative ids index the `NamedOutput`
table (clamped to `[0,10000]`), positive ids look up `outputs_`;
unknown outputs report `-1`. -/
def getCurrentLevel (c : Controller) (id : Int) : Int :=
  if id < 0 ∧ -id ≤ (c.namedOutput.length : Int) then
    match c.namedOutput.get? (-id - 1).toNat with
    | some n => min (max n.level 0) 10000
    | none => -1
  else
    match alookup c.outputs id with
    | some out => out.level
    | none => -1

/-- `RadioRA2::toggleOutput`: `level = level ? 0 : 10000` followed by a
`#OUTPUT` command; unknown ids do nothing. -/
def toggleOutput (c : Controller) (out : Int) : Controller × List OutputCmd :=
  match alookup c.outputs out with
  | none => (c, [])
  | some o =>
    let newLevel : Int := if o.level = 0 then 10000 else 0
    ({ c with
       outputs := aupdate c.outputs out (fun oo => { oo with level := newLevel }) },
     [⟨out, newLevel⟩])

/-- `RadioRA2::addOutput`: reuse the first `NamedOutput` whose name
matches, else append a fresh entry at level 0; the returned id is
`-(index + 1)`. -/
def addOutput (c : Controller) (name : String) (cb : Nat) : Int × Controller :=
  match c.namedOutput.findIdx? (fun n => n.name = name) with
  | some i => (-((i : Int) + 1), c)
  | none =>
    let table := c.namedOutput ++ [⟨name, 0, cb⟩]
    (-(table.length : Int), { c with namedOutput := table })

/-- `RadioRA2::addToButton`: validate keypad, button and duplicate
assignment; optionally coerce the button type to TOGGLE; append
`Assignment{id, level == -1 ? -1 : level*100}`. -/
def addToButton (c : Controller) (kp bt outId level : Int)
    (makeToggle : Bool) : Controller :=
  match alookup c.devices kp with
  | none => c
  | some dev =>
    match alookup dev.components bt with
    | none => c
    | some comp =>
      if comp.assignments.any (fun a => a.id = outId) then c
      else
        let comp := if makeToggle then
            (if comp.btype ≠ ButtonType.toggle ∧ comp.assignments ≠ [] then
               comp
             else { comp with btype := ButtonType.toggle })
          else comp
        let comp := { comp with
          assignments := comp.assignments ++
            [⟨outId, if level = -1 then -1 else level * 100⟩] }
        { c with devices := aupdate c.devices kp (fun d =>
            { d with components := aupdate d.components bt (fun _ => comp) }) }

/-- `RadioRA2::addButtonListener`: append a listener token to the button
when both keypad and button exist; otherwise do nothing. -/
def addButtonListener (c : Controller) (kp bt : Int) (cb : Nat) : Controller :=
  match alookup c.devices kp with
  | none => c
  | some dev =>
    match alookup dev.components bt with
    | none => c
    | some comp =>
      { c with devices := aupdate c.devices kp (fun d =>
          { d with components := aupdate d.components bt (fun _ =>
              { comp with listeners := comp.listeners ++ [cb] }) }) }

/-! ## Raise/lower dimming arithmetic (`dimSmooth`, `buttonPressed`) -/

/-- `DIMRATE = 25` (percent per second). -/
def DIMRATE : Int := 25

/-- `DIMLEVELS = 15` discrete dimming steps. -/
def DIMLEVELS : Int := 15

/-- Clamp a level into `[0,10000]`, as `std::min(10000, std::max(0, l))`. -/
def clampLevel (l : Int) : Int := min 10000 (max 0 l)

/-- The ramp delta of `RadioRA2::dimSmooth`:
`(now - startOfDim) * DIMRATE / 10 * dimDirection` in truncating
integer arithmetic. -/
def dimDelta (now startOfDim dir : Int) : Int :=
  Int.tdiv ((now - startOfDim) * DIMRATE) 10 * dir

/-- The level `dimSmooth` pushes to a fixture at time `now`:
`clamp(startingLevel + delta, 0, 10000)`. -/
def dimSmoothLevel (startLevel now startOfDim dir : Int) : Int :=
  clampLevel (startLevel + dimDelta now startOfDim dir)

/-- The upward snap target of the release path of
`RadioRA2::buttonPressed` (direction `+1`):
`((DIMLEVELS*start + 5000)/10000 + 1) * 10000 / DIMLEVELS`. -/
def snapRaise (startLevel : Int) : Int :=
  Int.tdiv ((Int.tdiv (DIMLEVELS * startLevel + 5000) 10000 + 1) * 10000)
    DIMLEVELS

/-- The final level commanded at release of a RAISE button when the
starting level is still remembered: `max` of the emulated level and the
snap target, clamped. -/
def raiseReleaseLevel (emulated startLevel : Int) : Int :=
  clampLevel (max emulated (snapRaise startLevel))

/-! ## Toggle buttons (`RadioRA2::buttonPressed`, TOGGLE / ADVANCED_TOGGLE) -/

/-- The `keypad.on` accumulation of the toggle case: skip relay
assignments (`level == -1`), or in whether any assigned output's current
level is positive. -/
def toggleOn (c : Controller) : List Assignment → Bool
  | [] => false
  | as :: rest =>
    if as.level = -1 then toggleOn c rest
    else decide (0 < getCurrentLevel c as.id) || toggleOn c rest

/-- The virtual branch (`id < 0`) of `RadioRA2::setDMXorLutron`: invalid
ids are ignored; otherwise, when the stored level differs from the
requested one, the stored level becomes `clamp(level)` and the sink
callback receives the unclamped `level`. -/
def setVirtual (c : Controller) (id level : Int) : Controller × List SinkCall :=
  if 0 ≤ id ∨ (c.namedOutput.length : Int) < -id then (c, [])
  else
    let idx := (-id - 1).toNat
    match c.namedOutput.get? idx with
    | none => (c, [])
    | some out =>
      if out.level = level then (c, [])
      else
        ({ c with namedOutput :=
             c.namedOutput.set idx { out with level := clampLevel level } },
         [⟨idx, level⟩])

/-- The per-assignment loop of the toggle case: every assignment with a
negative id is pushed through `setDMXorLutron` with level
`as.level == -1 ? -1 : on ? 0 : as.level`; gateway-native assignments
(`id ≥ 0`) are left to the gateway. -/
def applyToggleAssignments (c : Controller) (isOn : Bool) :
    List Assignment → Controller × List SinkCall
  | [] => (c, [])
  | as :: rest =>
    if as.id < 0 then
      let r1 := setVirtual c as.id
        (if as.level = -1 then -1 else if isOn then 0 else as.level)
      let r2 := applyToggleAssignments r1.1 isOn rest
      (r2.1, r1.2 ++ r2.2)
    else applyToggleAssignments c isOn rest

/-- The double-tap bookkeeping of `RadioRA2::buttonPressed` (source
lines 1102-1120) for the keypad fields carried by `Device`. -/
def tapBookkeeping (kp : Device) (button : Component) (isReleased : Bool)
    (now : Int) : Device :=
  let kp :=
    if kp.dimDirection ≠ 0 ∨ kp.lastButton ≠ button.id ∨ kp.firstTap = 0 then
      { kp with lastButton := button.id, dimDirection := 0, startOfDim := now,
                firstTap := now, numTaps := 1, onState := false }
    else
      { kp with numTaps := if isReleased then kp.numTaps else kp.numTaps + 1,
                startOfDim := now }
  { kp with released := if isReleased then now else 0 }

/-- `RadioRA2::buttonPressed` restricted to TOGGLE / ADVANCED_TOGGLE
buttons. The source dispatches this for *every* `~DEVICE,..,3` (press)
and `~DEVICE,..,4` (release) line (`readLine`): the `switch` over
`button.type` is not guarded by `isReleased`. On release the keypad
learns `supportsReleaseEvent`; then the toggle case computes `on`,
pushes every virtual assignment, and stores the inverted `on`. -/
def buttonPressedToggle (c : Controller) (kp : Device) (button : Component)
    (isReleased : Bool) (now : Int) : Controller × Device × List SinkCall :=
  if button.btype = ButtonType.toggle ∨
     button.btype = ButtonType.advancedToggle then
    let kp := if isReleased then { kp with supportsReleaseEvent := true } else kp
    let kp := tapBookkeeping kp button isReleased now
    let isOn := toggleOn c button.assignments
    let r := applyToggleAssignments c isOn button.assignments
    (r.1, { kp with onState := !isOn }, r.2)
  else (c, kp, [])

/-! ## LED recomputation (`RadioRA2::recomputeLEDs`) -/

/-- The accumulation loop over a component's assignments: carries the
pair `(ledState, empty)` exactly as the source does. Assignments whose
output reports a negative current level are skipped. -/
def ledScan (c : Controller) (logic : LedLogic) :
    List Assignment → Bool → Bool → Bool × Bool
  | [], ledState, empty => (ledState, empty)
  | as :: rest, ledState, empty =>
    let level := getCurrentLevel c as.id
    if level < 0 then ledScan c logic rest ledState empty
    else if logic = LedLogic.monitor then
      ledScan c logic rest (if 0 < level then true else ledState) false
    else
      ledScan c logic rest (if level ≠ as.level then false else ledState) false

/-- The LED state `recomputeLEDs` computes for one component:
start from `logic == LED_SCENE`, scan the assignments, and force the
LED off when no assignment contributed. -/
def componentLedState (c : Controller) (comp : Component) : Bool :=
  let r := ledScan c comp.logic comp.assignments
    (decide (comp.logic = LedLogic.scene)) true
  r.1 && !r.2

/-- The `#DEVICE,<dev>,<led>,9,<0|1>` commands `recomputeLEDs` emits for
one component: only components with an LED and MONITOR or SCENE logic
participate, and a command is sent only on a mismatch with the stored
`ledState`. -/
def recomputeComponent (c : Controller) (devId : Int) (comp : Component) :
    List LedCmd :=
  if 0 ≤ comp.led ∧
     (comp.logic = LedLogic.monitor ∨ comp.logic = LedLogic.scene) then
    let st := componentLedState c comp
    if st ≠ comp.ledState then [⟨devId, comp.led, st⟩] else []
  else []

/-- `RadioRA2::recomputeLEDs`: one pass over all keypads and components.
The source iterates over `const` references and mutates no stored state
(in particular it does not update `ledState`); the pass only emits
commands, so the controller is returned unchanged. -/
def recomputeLEDs (c : Controller) : Controller × List LedCmd :=
  (c, c.devices.flatMap (fun d =>
        d.2.components.flatMap (fun comp => recomputeComponent c d.2.id comp.2)))

/-- The SCENE clause of the claim, in the spec's words: the LED is on
iff every assigned output's current level equals its assigned level
exactly, and a component with an empty assignment set computes off.
(Defined for comparison with `componentLedState`, which is translated
from the source.) -/
def sceneLedClaim (c : Controller) (comp : Component) : Bool :=
  !comp.assignments.isEmpty &&
    comp.assignments.all (fun as => getCurrentLevel c as.id = as.level)

/-! ## Sequences of extension-API calls (`addOutput` / `addToButton`) -/

/-- One call of the output-virtualization API. -/
inductive ConfigOp where
  | addOutput (name : String) (cb : Nat)
  | addToButton (kp bt outId level : Int) (makeToggle : Bool)
deriving DecidableEq, Repr

/-- Apply one API call to the controller. -/
def applyOp (c : Controller) : ConfigOp → Controller
  | ConfigOp.addOutput name cb => (addOutput c name cb).2
  | ConfigOp.addToButton kp bt outId level mk => addToButton c kp bt outId level mk

/-- Run a sequence of API calls. -/
def runOps (c : Controller) : List ConfigOp → Controller
  | [] => c
  | op :: rest => runOps (applyOp c op) rest

/-- A sequence of API calls in which every negative output id handed to
`addToButton` refers to a `NamedOutput` entry existing at that point —
i.e. an id obtained from an earlier `addOutput` call (which is the only
way the daemon produces negative ids). -/
def validOps (c : Controller) : List ConfigOp → Bool
  | [] => true
  | op :: rest =>
    (match op with
     | ConfigOp.addOutput _ _ => true
     | ConfigOp.addToButton _ _ outId _ _ =>
       decide (0 ≤ outId) || decide (-outId ≤ (c.namedOutput.length : Int))) &&
    validOps (applyOp c op) rest

/-- The invariant of the claim: every stored assignment with a negative
output id indexes the `NamedOutput` table, i.e.
`0 ≤ -outputId - 1 < namedOutput.length`. -/
def virtualIdsValid (c : Controller) : Prop :=
  ∀ d ∈ c.devices, ∀ comp ∈ d.2.components, ∀ as ∈ comp.2.assignments,
    as.id < 0 →
      0 ≤ -as.id - 1 ∧ -as.id - 1 < (c.namedOutput.length : Int)

end RadioRA2

namespace Lutron

/-- A command handed to `Lutron::command`: the command text, the
result-callback token, and the optional error-hook token. -/
structure Command where
  cmd : String
  cb : Nat
  err : Option Nat
deriving DecidableEq, Repr

/-- An observable callback invocation of the link. `result` is a result
callback receiving a line ((possibly empty); `errHook` is an error hook;
`closedHook` is the on-closed hook; `resubmit` records `checkDelayed`
re-scheduling a delayed command through `Event::runLater`. -/
inductive Emit where
  | result (cb : Nat) (line : String)
  | errHook (e : Nat)
  | closedHook
  | resubmit (c : Command)
deriving DecidableEq, Repr

/-- The queue state of the `Lutron` link: the two pending queues and the
two delayed queues (`pending_[inCallback]`, `later_[inCallback]`), the
`onPrompt_` completions (a `none` entry is a null `std::function`, which
the prompt handler skips), and the scalar flags. -/
structure LinkState where
  pendingInit : List Command
  pendingUser : List Command
  laterInit : List Command
  laterUser : List Command
  onPrompt : List (Option Emit)
  inCallback : Bool
  inCommand : Bool
  isConnected : Bool
  dontfinalize : Bool
  atPrompt : Bool
deriving DecidableEq, Repr

/-- `pending_[inCallback_]`, the pending queue of the current phase. -/
def pendingCur (st : LinkState) : List Command :=
  if st.inCallback then st.pendingInit else st.pendingUser

/-- Replace `pending_[inCallback_]`. -/
def setPendingCur (st : LinkState) (p : List Command) : LinkState :=
  if st.inCallback then { st with pendingInit := p }
  else { st with pendingUser := p }

/-- The error hooks of a list of commands, in order, as scheduled
emissions (commands without an error hook are skipped). -/
def errEmits (l : List Command) : List Emit :=
  l.filterMap (fun c => c.err.map Emit.errHook)

/-- `Lutron::checkDelayed` as invoked with no `next` continuation:
leading empty-command sentinels run their callback with `""` (stopping
there if a command is active); the first real command is taken off the
queue and re-scheduled via `Event::runLater`. -/
def checkDelayedQueue (inCommand : Bool) :
    List Command → List Command × List Emit
  | [] => ([], [])
  | c :: rest =>
    if c.cmd = "" then
      if inCommand then (rest, [Emit.result c.cb ""])
      else
        let r := checkDelayedQueue inCommand rest
        (r.1, Emit.result c.cb "" :: r.2)
    else (rest, [Emit.resubmit c])

/-- `Lutron::closeSock`. With `dontfinalize_` set only the socket state
is torn down. Otherwise: `onPrompt_` is cleared (without running),
`inCommand_` drops, the *init-phase* delayed queue is failed only when
the close happens inside the on-init callback, then the pending queue of
the current phase and the user pending queue are failed (each in reverse
order), `inCallback_` resets, the on-closed hook fires if the link had
been connected, and `checkDelayed` runs over the user delayed queue. -/
def closeSock (st : LinkState) : LinkState × List Emit :=
  let closing := !st.dontfinalize && st.isConnected
  if st.dontfinalize then
    ({ st with onPrompt := [], isConnected := false, atPrompt := false }, [])
  else
    let laterFailed := if st.inCallback then st.laterInit else []
    let pendPhase := if st.inCallback then st.pendingInit else st.pendingUser
    let pendSecond := if st.inCallback then st.pendingUser else []
    let es1 := errEmits laterFailed ++ errEmits pendPhase.reverse ++
               errEmits pendSecond.reverse
    let es2 := if closing then [Emit.closedHook] else []
    let r := checkDelayedQueue false st.laterUser
    ({ st with onPrompt := [], isConnected := false, atPrompt := false,
               inCommand := false, inCallback := false,
               pendingInit := if st.inCallback then [] else st.pendingInit,
               pendingUser := [],
               laterInit := if st.inCallback then [] else st.laterInit,
               laterUser := r.1 },
     es1 ++ es2 ++ r.2)

/-! ## Line processing (`Lutron::processLine`) -/

/-- The `GNET> ` command prompt. -/
def PROMPT : String := "GNET> "

/-- `Util::starts_with`, character-wise. -/
def startsWith (pre s : String) : Bool := pre.data.isPrefixOf s.data

/-- The index of the last occurrence of a character
(`std::string::find_last_of`), or `none`. -/
def lastIdxOf (ch : Char) : List Char → Option Nat
  | [] => none
  | c :: rest =>
    match lastIdxOf ch rest with
    | some k => some (k + 1)
    | none => if c = ch then some 0 else none

/-- The "head" of a pending query that a `~` status line must repeat:
`pending.substr(1, pending.find_last_of(',') - 1)`. When the command has
no comma (or the comma sits at index 0), the C++ length argument
underflows to `npos` and the whole remainder after the `?` is taken. -/
def queryHead (cmd : String) : String :=
  match lastIdxOf ',' cmd.data with
  | some k => if k = 0 then ⟨cmd.data.drop 1⟩ else ⟨(cmd.data.drop 1).take (k - 1)⟩
  | none => ⟨cmd.data.drop 1⟩

/-- Whether a received `~` line answers a pending query: the query must
be longer than one character and the line must start with `~` followed
by the query's head. -/
def matchesQuery (pcmd line : String) : Bool :=
  decide (1 < pcmd.length) && startsWith ("~" ++ queryHead pcmd) line

/-- Find the first pending query matched by `line` and return it
together with the queue with that entry removed. -/
def findQueryMatch (line : String) :
    List Command → Option (Command × List Command)
  | [] => none
  | c :: rest =>
    if matchesQuery c.cmd line then some (c, rest)
    else
      match findQueryMatch line rest with
      | some r => some (r.1, c :: r.2)
      | none => none

/-- `Lutron::processLine`. Branches, in source order: the `GNET> `
prompt (run the `onPrompt_` completions, flush every still-pending query
of the current phase with an empty result while a command is active,
drop `inCommand_`, run `checkDelayed`); a `login: `/`password: `-style
echo of the most recently pushed pending entry; an error line (`~ERROR`
or exactly `is an unknown command`: take the *oldest* pending query off
the queue and schedule its error hook for the next prompt); any other
`~` status line (complete the first matching pending query on the next
prompt). Timeout bookkeeping (`timeout_`) and the socket reader are not
part of the queue model; no branch touches `isConnected_`. -/
def processLine (st : LinkState) (line : String) : LinkState × List Emit :=
  if line = PROMPT then
    let es1 := st.onPrompt.filterMap id
    let p := pendingCur st
    let es2 := if st.inCommand then p.map (fun c => Emit.result c.cb "") else []
    let p1 := if st.inCommand then [] else p
    let st1 := setPendingCur st p1
    let st2 := { st1 with onPrompt := [], atPrompt := true, inCommand := false }
    let laterCur := if st2.inCallback then st2.laterInit else st2.laterUser
    let r := checkDelayedQueue false laterCur
    (if st2.inCallback then { st2 with laterInit := r.1 }
     else { st2 with laterUser := r.1 },
     es1 ++ es2 ++ r.2)
  else if (pendingCur st).getLast?.map Command.cmd = some line then
    (setPendingCur st (pendingCur st).dropLast,
     match (pendingCur st).getLast? with
     | some last => [Emit.result last.cb line]
     | none => [])
  else if startsWith "~ERROR" line || line = "is an unknown command" then
    match pendingCur st with
    | [] => (st, [])
    | c :: rest =>
      if st.inCommand then
        ({ setPendingCur st rest with
           onPrompt := st.onPrompt ++ [c.err.map Emit.errHook] }, [])
      else (st, [])
  else if startsWith "~" line then
    match findQueryMatch line (pendingCur st) with
    | some r =>
      ({ setPendingCur st r.2 with
         onPrompt := st.onPrompt ++ [some (Emit.result r.1.cb line)] }, [])
    | none => (st, [])
  else (st, [])

/-- Process a sequence of received lines, collecting all emissions. -/
def processLines (st : LinkState) : List String → LinkState × List Emit
  | [] => (st, [])
  | line :: rest =>
    let r1 := processLine st line
    let r2 := processLines r1.1 rest
    (r2.1, r1.2 ++ r2.2)

/-- The error-hook tokens invoked among a list of emissions. -/
def errTokens (es : List Emit) : List Nat :=
  es.filterMap (fun e => match e with | Emit.errHook n => some n | _ => none)

end Lutron

/-! ## Concrete states used by the counterexamples and witnesses -/

namespace RadioRA2

/-- A keypad with fresh dim-emulation state. -/
def freshKeypad (id : Int) (comps : List (Int × Component)) : Device :=
  ⟨id, "keypad", comps, -1, 0, 0, 0, 0, 0, [], false, false⟩

/-- A controller with one virtual output (a DMX fixture) at level 0. -/
def toggleDemoController : Controller :=
  ⟨[], [], [⟨"DMX:7", 0, 0⟩]⟩

/-- A TOGGLE button whose only assignment is the virtual output `-1`
at level 8000. -/
def toggleDemoButton : Component :=
  ⟨3, -1, "light", LedLogic.unknown, ButtonType.toggle, [⟨-1, 8000⟩], false, []⟩

/-- A controller with the single gateway output 5 at level 5000. -/
def toggleTwiceController : Controller :=
  ⟨[], [(5, ⟨5, "fixture", 5000⟩)], []⟩

/-- A MONITOR LED component watching output 3, with the LED recorded
off. -/
def ledDemoComponent : Component :=
  ⟨4, 81, "led", LedLogic.monitor, ButtonType.toggle, [⟨3, 8000⟩], false, []⟩

/-- A controller where output 3 is on (level 5000) but the LED of
`ledDemoComponent` is still recorded off: the recompute pass emits. -/
def ledDemoController : Controller :=
  ⟨[(1, freshKeypad 1 [(4, ledDemoComponent)])], [(3, ⟨3, "out", 5000⟩)], []⟩

/-- A SCENE LED component whose only assignment names the unknown
output 99 with relay level `-1`. -/
def sceneDemoComponent : Component :=
  ⟨6, 82, "scene", LedLogic.scene, ButtonType.singleAction, [⟨99, -1⟩], false, []⟩

/-- A controller that knows nothing about output 99. -/
def sceneDemoController : Controller := ⟨[], [], []⟩

/-- A schema with keypad 2 carrying button 3 (no assignments) and an
empty `NamedOutput` table. -/
def opsDemoController : Controller :=
  ⟨[(2, freshKeypad 2
      [(3, ⟨3, -1, "btn", LedLogic.unknown, ButtonType.toggle, [], false, []⟩)])],
    [], []⟩

end RadioRA2

namespace Lutron

/-- A delayed user-phase command with error hook 7, waiting while the
link is connected outside the init phase. -/
def closeDemoState : LinkState :=
  ⟨[], [], [], [⟨"?OUTPUT,5,1", 0, some 7⟩], [], false, true, true, false, false⟩

/-- The pending query `?A` of the spec's error scenario. -/
def queryA : Command := ⟨"?OUTPUT,5,1", 1, some 2⟩

/-- The pending query `?B` of the spec's error scenario. -/
def queryB : Command := ⟨"?OUTPUT,6,1", 3, some 4⟩

/-- Pending queue `[?A, ?B]`, one command active, user phase. -/
def errorDemoState : LinkState :=
  ⟨[], [queryA, queryB], [], [], [], false, true, true, false, false⟩

/-- The received stream of the spec's scenario: an error, a prompt,
`?B`'s own result line, a prompt. -/
def errorDemoLines : List String :=
  ["~ERROR,1", PROMPT, "~OUTPUT,6,1,80.00", PROMPT]

/-- A link closed in the middle of the on-init callback, with commands
in all four queues (error hooks 11..14). -/
def closeWitnessState : LinkState :=
  ⟨[⟨"?A,1", 1, some 11⟩], [⟨"?B,1", 2, some 12⟩],
   [⟨"#C,1", 3, some 13⟩], [⟨"#D,1", 4, some 14⟩],
   [], true, true, true, false, false⟩

end Lutron

/-! ## Helper lemmas -/

theorem alookup_aupdate_self {α : Type} (m : List (Int × α)) (k : Int)
    (f : α → α) : alookup (aupdate m k f) k = (alookup m k).map f := by
  induction m with
  | nil => rfl
  | cons p rest ih =>
    by_cases h : p.1 = k
    · simp [alookup, aupdate, List.find?, h]
    · simpa [alookup, aupdate, List.find?, h] using ih

theorem mem_aupdate {α : Type} {m : List (Int × α)} {k : Int} {f : α → α}
    {p : Int × α} (hp : p ∈ aupdate m k f) :
    ∃ q ∈ m, p = q ∨ (p.1 = q.1 ∧ p.2 = f q.2) := by
  rcases List.mem_map.mp hp with ⟨q, hq, hpq⟩
  refine ⟨q, hq, ?_⟩
  by_cases h : q.1 = k
  · right
    rw [if_pos h] at hpq
    subst hpq
    exact ⟨rfl, rfl⟩
  · left
    rw [if_neg h] at hpq
    exact hpq.symm

namespace RadioRA2

/-! ## C7 - raise/release arithmetic -/

/-- C7: for a raise button pressed at t=0 and released at t=400 ms on a
virtual dimmable assignment starting at level 4000, the ramp delta at
release is `400·25/10·(+1) = 1000`, the emulated level at release is
5000, the snapped target is `((15·4000+5000)/10000 + 1)·10000/15 = 4666`
in truncating integer division, and the level commanded at release is
`max(5000, 4666) = 5000`. -/
theorem c7_raise_release_numbers :
    dimDelta 400 0 1 = 1000 ∧
    dimSmoothLevel 4000 400 0 1 = 5000 ∧
    snapRaise 4000 = 4666 ∧
    raiseReleaseLevel (dimSmoothLevel 4000 400 0 1) 4000 = 5000 := by
  decide

/-! ## C2 - double `toggleOutput` -/

/-- C2 counterexample: for the gateway output 5 stored at level 5000,
two consecutive `toggleOutput(5)` calls leave the stored level at 10000,
not at its value before the first call. -/
theorem c2_counterexample :
    (alookup (toggleOutput (toggleOutput toggleTwiceController 5).1 5).1.outputs
        5).map Output.level = some 10000 ∧
    (alookup toggleTwiceController.outputs 5).map Output.level = some 5000 := by
  decide

/-- C2 (amended): two consecutive `toggleOutput(id)` calls on a known
output leave the stored level at 0 when the original level was 0 and at
10000 otherwise; in particular the original level is restored exactly
when it was 0 or 10000. -/
theorem c2_toggle_twice (c : Controller) (id : Int) (o : Output)
    (h : alookup c.outputs id = some o) :
    (alookup (toggleOutput (toggleOutput c id).1 id).1.outputs id).map
        Output.level = some (if o.level = 0 then 0 else 10000) ∧
    ((o.level = 0 ∨ o.level = 10000) →
      (alookup (toggleOutput (toggleOutput c id).1 id).1.outputs id).map
          Output.level = some o.level) := by
  have step : ∀ (c' : Controller) (o' : Output),
      alookup c'.outputs id = some o' →
      (toggleOutput c' id).1.outputs
        = aupdate c'.outputs id
            (fun oo => { oo with level := if o'.level = 0 then 10000 else 0 }) := by
    intro c' o' h'
    unfold toggleOutput
    rw [h']
  have h2 : alookup (toggleOutput c id).1.outputs id
      = some { o with level := if o.level = 0 then 10000 else 0 } := by
    rw [step c o h, alookup_aupdate_self, h]
    rfl
  have h3 : alookup (toggleOutput (toggleOutput c id).1 id).1.outputs id
      = some { o with level :=
          if (if o.level = 0 then 10000 else 0) = (0 : Int) then 10000
          else 0 } := by
    rw [step (toggleOutput c id).1 _ h2, alookup_aupdate_self, h2]
    rfl
  constructor
  · rw [h3]
    by_cases h0 : o.level = 0 <;> simp [h0]
  · intro hor
    rw [h3]
    rcases hor with h0 | h0 <;> simp [h0]

/-- C2 witness: the amended statement evaluated on the concrete
controller with output 5 at level 5000. -/
theorem c2_witness :
    (alookup (toggleOutput (toggleOutput toggleTwiceController 5).1 5).1.outputs
        5).map Output.level
      = some (if (5000 : Int) = 0 then 0 else 10000) :=
  (c2_toggle_twice toggleTwiceController 5 ⟨5, "fixture", 5000⟩ rfl).1

/-! ## C10 - re-registering a named output -/

/-- C10: calling `addOutput(name, cb2)` after `addOutput(name, cb1)`
returns the same negative id and leaves the controller - and hence the
`NamedOutput` table's size, the stored level, and the originally
registered callback - unchanged; the new callback `cb2` is not stored
anywhere. -/
theorem c10_addOutput_idempotent (c : Controller) (name : String)
    (cb1 cb2 : Nat) :
    (addOutput (addOutput c name cb1).2 name cb2).1
        = (addOutput c name cb1).1 ∧
    (addOutput (addOutput c name cb1).2 name cb2).2
        = (addOutput c name cb1).2 := by
  cases h : c.namedOutput.findIdx? (fun n => n.name = name) with
  | some i => simp [addOutput, h]
  | none =>
    have h2 : (c.namedOutput ++ ([⟨name, 0, cb1⟩] : List NamedOutput)).findIdx?
        (fun n => n.name = name) = some c.namedOutput.length := by
      rw [List.findIdx?_append, h]
      simp [List.findIdx?]
    simp [addOutput, h, h2]

/-! ## C1 - toggle buttons and press/release events -/

/-- C1 (evaluation at the failing input): the claim says the toggle
action runs exactly once per physical actuation, on the release event.
In the source, however, the `switch` on the button type in
`buttonPressed` is not guarded by `isReleased`, so on a keypad that
reports release events the toggle body runs on the press *and again* on
the release. Starting from a virtual output at level 0 with assigned
level 8000: the press already applies the toggle (sink called with 8000,
stored level 8000), and the release applies it a second time (sink
called with 0), leaving the output at 0 instead of the claimed 8000. -/
theorem c1_toggle_runs_on_both_events :
    (buttonPressedToggle toggleDemoController (freshKeypad 2 [])
        toggleDemoButton false 0).2.2 = [⟨0, 8000⟩] ∧
    (buttonPressedToggle toggleDemoController (freshKeypad 2 [])
        toggleDemoButton false 0).1.namedOutput.map NamedOutput.level
      = [8000] ∧
    (buttonPressedToggle
        (buttonPressedToggle toggleDemoController (freshKeypad 2 [])
          toggleDemoButton false 0).1
        (buttonPressedToggle toggleDemoController (freshKeypad 2 [])
          toggleDemoButton false 0).2.1
        toggleDemoButton true 150).2.2 = [⟨0, 0⟩] ∧
    (buttonPressedToggle
        (buttonPressedToggle toggleDemoController (freshKeypad 2 [])
          toggleDemoButton false 0).1
        (buttonPressedToggle toggleDemoController (freshKeypad 2 [])
          toggleDemoButton false 0).2.1
        toggleDemoButton true 150).1.namedOutput.map NamedOutput.level
      = [0] := by
  decide

/-! ## C3 - repeating the LED recomputation pass -/

/-- C3 counterexample: with output 3 on and the LED of the MONITOR
component still recorded off, the second recomputation run (no state
changed in between - the pass itself changes nothing) emits the same
`#DEVICE,1,81,9,1` command again instead of nothing. -/
theorem c3_counterexample :
    (recomputeLEDs (recomputeLEDs ledDemoController).1).2
        = [⟨1, 81, true⟩] ∧
    (recomputeLEDs (recomputeLEDs ledDemoController).1).2 ≠ [] := by
  decide

theorem recomputeComponent_eq_nil (c : Controller) (i : Int)
    (comp : Component) :
    recomputeComponent c i comp = [] ↔
      (0 ≤ comp.led →
        (comp.logic = LedLogic.monitor ∨ comp.logic = LedLogic.scene) →
        componentLedState c comp = comp.ledState) := by
  unfold recomputeComponent
  by_cases h : 0 ≤ comp.led ∧
      (comp.logic = LedLogic.monitor ∨ comp.logic = LedLogic.scene)
  · rw [if_pos h]
    by_cases hst : componentLedState c comp = comp.ledState
    · simp [hst, h]
    · simp only [ne_eq, hst, not_false_eq_true, if_true]
      constructor
      · intro hfalse
        exact absurd hfalse (by simp)
      · intro himp
        exact (himp h.1 h.2).elim
  · rw [if_neg h]
    constructor
    · intro _ hled hlogic
      exact absurd ⟨hled, hlogic⟩ h
    · intro _
      rfl

/-- C3 (amended): the recomputation pass mutates no controller state (in
particular it does not update the stored `ledState`; that only happens
when the gateway echoes the `~DEVICE,...,9,...` line), so a second run
emits exactly the commands of the first run; the second run emits
nothing iff already every MONITOR/SCENE component with an LED has its
stored `ledState` equal to the computed state. -/
theorem c3_recompute_repeats (c : Controller) :
    (recomputeLEDs c).1 = c ∧
    (recomputeLEDs (recomputeLEDs c).1).2 = (recomputeLEDs c).2 ∧
    ((recomputeLEDs (recomputeLEDs c).1).2 = [] ↔
      ∀ d ∈ c.devices, ∀ comp ∈ d.2.components,
        0 ≤ comp.2.led →
        (comp.2.logic = LedLogic.monitor ∨ comp.2.logic = LedLogic.scene) →
        componentLedState c comp.2 = comp.2.ledState) := by
  refine ⟨rfl, rfl, ?_⟩
  show (recomputeLEDs c).2 = [] ↔ _
  unfold recomputeLEDs
  rw [List.flatMap_eq_nil_iff]
  constructor
  · intro h d hd comp hcomp
    have hdev := h d hd
    rw [List.flatMap_eq_nil_iff] at hdev
    exact (recomputeComponent_eq_nil c d.2.id comp.2).mp (hdev comp hcomp)
  · intro h d hd
    rw [List.flatMap_eq_nil_iff]
    intro comp hcomp
    exact (recomputeComponent_eq_nil c d.2.id comp.2).mpr (h d hd comp hcomp)

/-! ## C4 - the LED state computed for MONITOR and SCENE components -/

/-- C4 counterexample: a SCENE component whose only assignment names the
unknown output 99 with level `-1`. The source skips assignments whose
current level reports negative and then treats the component as empty,
so it computes the LED off (and, with `ledState` stored false, emits
nothing); the claim's reading - on iff every assigned output's current
level equals its assigned level exactly - computes on (both levels are
`-1`) and would demand a `#DEVICE,...,9,1` command. -/
theorem c4_counterexample :
    componentLedState sceneDemoController sceneDemoComponent = false ∧
    sceneLedClaim sceneDemoController sceneDemoComponent = true ∧
    componentLedState sceneDemoController sceneDemoComponent
      ≠ sceneLedClaim sceneDemoController sceneDemoComponent := by
  decide

theorem ledScan_monitor (c : Controller) (l : List Assignment) (b e : Bool) :
    ledScan c LedLogic.monitor l b e
      = (b || l.any (fun as => decide (0 < getCurrentLevel c as.id)),
         e && !(l.any (fun as => decide (0 ≤ getCurrentLevel c as.id)))) := by
  induction l generalizing b e with
  | nil => simp [ledScan]
  | cons as rest ih =>
    simp only [ledScan, List.any_cons, ih]
    generalize getCurrentLevel c as.id = L
    by_cases h : L < 0
    · have h2 : ¬ 0 < L := by omega
      have h3 : ¬ 0 ≤ L := by omega
      simp [h, h2, h3]
    · have h3 : 0 ≤ L := by omega
      by_cases h2 : 0 < L
      · simp [h, h2, h3]
      · simp [h, h2, h3, Bool.or_assoc]

theorem ledScan_scene (c : Controller) (l : List Assignment) (b e : Bool) :
    ledScan c LedLogic.scene l b e
      = (b && l.all (fun as => decide (getCurrentLevel c as.id < 0 ∨
            getCurrentLevel c as.id = as.level)),
         e && !(l.any (fun as => decide (0 ≤ getCurrentLevel c as.id)))) := by
  induction l generalizing b e with
  | nil => simp [ledScan]
  | cons as rest ih =>
    simp only [ledScan, List.any_cons, List.all_cons, ih]
    generalize getCurrentLevel c as.id = L
    by_cases h : L < 0
    · have h3 : ¬ 0 ≤ L := by omega
      simp [h, h3]
    · have h3 : 0 ≤ L := by omega
      by_cases h2 : L = as.level
      · subst h2
        simp [h, h3, Bool.and_assoc]
      · simp [h, h2, h3]

/-- C4 (amended): the recomputation pass computes MONITOR as claimed
(on iff some assignment's output has current level > 0); SCENE is on iff
at least one assignment's output has a known current level (`≥ 0`) and
every assignment with a known current level equals its assigned level
exactly - assignments whose output reports a negative level are skipped,
not compared; an empty assignment set computes off; and for a component
with an LED and MONITOR/SCENE logic a `#DEVICE,<dev>,<led>,9,<0|1>`
command is emitted iff the computed state differs from the stored
`ledState`. -/
theorem c4_led_state_logic (c : Controller) (comp : Component) (devId : Int) :
    (comp.logic = LedLogic.monitor →
      componentLedState c comp
        = comp.assignments.any (fun as => decide (0 < getCurrentLevel c as.id))) ∧
    (comp.logic = LedLogic.scene →
      componentLedState c comp
        = (comp.assignments.any (fun as => decide (0 ≤ getCurrentLevel c as.id))
           && comp.assignments.all (fun as =>
                decide (getCurrentLevel c as.id < 0 ∨
                        getCurrentLevel c as.id = as.level)))) ∧
    (comp.assignments = [] → componentLedState c comp = false) ∧
    (0 ≤ comp.led →
      (comp.logic = LedLogic.monitor ∨ comp.logic = LedLogic.scene) →
      (recomputeComponent c devId comp ≠ [] ↔
        componentLedState c comp ≠ comp.ledState)) := by
  refine ⟨?_, ?_, ?_, ?_⟩
  · intro hmon
    unfold componentLedState
    rw [hmon, ledScan_monitor]
    cases hany : comp.assignments.any
        (fun as => decide (0 < getCurrentLevel c as.id)) with
    | false => simp [hany]
    | true =>
      have hge : comp.assignments.any
          (fun as => decide (0 ≤ getCurrentLevel c as.id)) = true := by
        rcases List.any_eq_true.mp hany with ⟨as, hmem, hlt⟩
        refine List.any_eq_true.mpr ⟨as, hmem, ?_⟩
        have := of_decide_eq_true hlt
        exact decide_eq_true (by omega)
      simp [hany, hge]
  · intro hsc
    unfold componentLedState
    rw [hsc, ledScan_scene]
    cases hge : comp.assignments.any
        (fun as => decide (0 ≤ getCurrentLevel c as.id)) with
    | false => simp [hge]
    | true => simp [hge, Bool.and_comm]
  · intro hnil
    unfold componentLedState
    rw [hnil]
    cases comp.logic <;> simp [ledScan]
  · intro hled hlogic
    unfold recomputeComponent
    rw [if_pos ⟨hled, hlogic⟩]
    by_cases hst : componentLedState c comp = comp.ledState
    · simp [hst]
    · simp [hst]

/-- C4 witness: the amended characterization evaluated on the concrete
MONITOR component watching output 3 (level 5000, stored LED off). -/
theorem c4_witness :
    (componentLedState ledDemoController ledDemoComponent
      = ledDemoComponent.assignments.any
          (fun as => decide (0 < getCurrentLevel ledDemoController as.id))) ∧
    (recomputeComponent ledDemoController 1 ledDemoComponent ≠ [] ↔
      componentLedState ledDemoController ledDemoComponent
        ≠ ledDemoComponent.ledState) :=
  ⟨(c4_led_state_logic ledDemoController ledDemoComponent 1).1 rfl,
   (c4_led_state_logic ledDemoController ledDemoComponent 1).2.2.2
     (by decide) (Or.inl rfl)⟩

/-! ## C8 - validity of negative assignment ids -/

theorem alookup_mem {α : Type} {m : List (Int × α)} {k : Int} {v : α}
    (h : alookup m k = some v) : (k, v) ∈ m := by
  unfold alookup at h
  rcases Option.map_eq_some'.mp h with ⟨q, hq, hv⟩
  have hk : q.1 = k := by
    have h2 := List.find?_some hq
    exact of_decide_eq_true h2
  have hmem := List.mem_of_find?_eq_some hq
  rw [← hk, ← hv]
  simpa using hmem

theorem addOutput_snd (c : Controller) (name : String) (cb : Nat) :
    ∃ tail, (addOutput c name cb).2
      = { c with namedOutput := c.namedOutput ++ tail } := by
  unfold addOutput
  cases c.namedOutput.findIdx? (fun n => n.name = name) with
  | some i => exact ⟨[], by simp⟩
  | none => exact ⟨[⟨name, 0, cb⟩], rfl⟩

theorem virtualIdsValid_addOutput (c : Controller) (name : String) (cb : Nat)
    (h : virtualIdsValid c) : virtualIdsValid (addOutput c name cb).2 := by
  obtain ⟨tail, htail⟩ := addOutput_snd c name cb
  rw [htail]
  intro d hd comp hcomp as has hneg
  have hold := h d hd comp hcomp as has hneg
  have hlen : (c.namedOutput.length : Int)
      ≤ ((c.namedOutput ++ tail).length : Int) := by
    rw [List.length_append]
    push_cast
    omega
  exact ⟨hold.1, lt_of_lt_of_le hold.2 hlen⟩

theorem addToButton_found (c : Controller) (kp bt outId level : Int)
    (mk : Bool) (dev : Device) (comp : Component)
    (hkp : alookup c.devices kp = some dev)
    (hbt : alookup dev.components bt = some comp)
    (hdup : ¬ comp.assignments.any (fun a => a.id = outId)) :
    ∃ newComp : Component,
      newComp.assignments = comp.assignments ++
        [⟨outId, if level = -1 then -1 else level * 100⟩] ∧
      addToButton c kp bt outId level mk
        = { c with devices := aupdate c.devices kp (fun d =>
            { d with components :=
                aupdate d.components bt (fun _ => newComp) }) } := by
  refine ⟨{ (if mk then
              (if comp.btype ≠ ButtonType.toggle ∧ comp.assignments ≠ []
               then comp
               else { comp with btype := ButtonType.toggle })
            else comp) with
            assignments := (if mk then
              (if comp.btype ≠ ButtonType.toggle ∧ comp.assignments ≠ []
               then comp
               else { comp with btype := ButtonType.toggle })
            else comp).assignments ++
              [⟨outId, if level = -1 then -1 else level * 100⟩] }, ?_, ?_⟩
  · have hassign : (if mk then
        (if comp.btype ≠ ButtonType.toggle ∧ comp.assignments ≠ []
         then comp
         else { comp with btype := ButtonType.toggle })
      else comp).assignments = comp.assignments := by
      split_ifs <;> rfl
    rw [hassign]
  · simp only [addToButton, hkp, hbt, hdup, if_false, Bool.false_eq_true]

theorem virtualIdsValid_setComponent (c : Controller) (kp bt : Int)
    (newComp : Component) (h : virtualIdsValid c)
    (hnew : ∀ as ∈ newComp.assignments, as.id < 0 →
      0 ≤ -as.id - 1 ∧ -as.id - 1 < (c.namedOutput.length : Int)) :
    virtualIdsValid { c with devices := aupdate c.devices kp (fun d =>
      { d with components := aupdate d.components bt (fun _ => newComp) }) } := by
  intro d hd comp' hcomp' as has hneg
  have hd2 : d ∈ aupdate c.devices kp (fun d =>
      { d with components := aupdate d.components bt (fun _ => newComp) }) := hd
  rcases mem_aupdate hd2 with ⟨q, hq, hdq | ⟨_, hdq⟩⟩
  · subst hdq
    exact h d hq comp' hcomp' as has hneg
  · rw [hdq] at hcomp'
    have hcomp2 : comp' ∈ aupdate q.2.components bt (fun _ => newComp) := hcomp'
    rcases mem_aupdate hcomp2 with ⟨r, hr, hcr | ⟨_, hcr⟩⟩
    · subst hcr
      exact h q hq comp' hr as has hneg
    · rw [hcr] at has
      exact hnew as has hneg

theorem virtualIdsValid_addToButton (c : Controller) (kp bt outId level : Int)
    (mk : Bool) (h : virtualIdsValid c)
    (hid : 0 ≤ outId ∨ -outId ≤ (c.namedOutput.length : Int)) :
    virtualIdsValid (addToButton c kp bt outId level mk) := by
  cases hkp : alookup c.devices kp with
  | none =>
    unfold addToButton
    rw [hkp]
    exact h
  | some dev =>
    cases hbt : alookup dev.components bt with
    | none =>
      have heq : addToButton c kp bt outId level mk = c := by
        simp [addToButton, hkp, hbt]
      rw [heq]
      exact h
    | some comp =>
      by_cases hdup : comp.assignments.any (fun a => a.id = outId)
      · have heq : addToButton c kp bt outId level mk = c := by
          simp [addToButton, hkp, hbt, hdup]
        rw [heq]
        exact h
      · obtain ⟨newComp, hassign, heq⟩ :=
          addToButton_found c kp bt outId level mk dev comp hkp hbt hdup
        rw [heq]
        refine virtualIdsValid_setComponent c kp bt newComp h ?_
        intro as has hneg
        rw [hassign] at has
        rcases List.mem_append.mp has with hmem | hnew
        · exact h (kp, dev) (alookup_mem hkp) (bt, comp) (alookup_mem hbt)
            as hmem hneg
        · have has2 : as = ⟨outId, if level = -1 then -1 else level * 100⟩ := by
            simpa using hnew
          rw [has2] at hneg ⊢
          rcases hid with hpos | hbound
          · exact absurd hneg (by simpa using hpos)
          · constructor
            · simp at hneg ⊢
              omega
            · simp at hneg ⊢
              omega

/-- C8 counterexample: `addToButton(2, 3, -1, 50)` on a schema with an
empty `NamedOutput` table stores an assignment with outputId `-1`,
whose index `-(-1) - 1 = 0` is not a valid index into the empty table:
the claimed invariant fails over an unconstrained call sequence. -/
theorem c8_counterexample :
    ¬ virtualIdsValid (runOps opsDemoController
        [ConfigOp.addToButton 2 3 (-1) 50 false]) := by
  unfold virtualIdsValid
  decide

/-- C8 (amended): after any sequence of `addOutput` and `addToButton`
calls in which every *negative* id passed to `addToButton` refers to an
existing `NamedOutput` entry (ids returned by an earlier `addOutput`
always do, and the table never shrinks), every stored assignment with
negative outputId satisfies `0 ≤ -outputId - 1 < size of the NamedOutput
table`, provided the starting state satisfied the same invariant. -/
theorem c8_virtual_ids_preserved (c : Controller) (ops : List ConfigOp)
    (hinv : virtualIdsValid c) (hops : validOps c ops = true) :
    virtualIdsValid (runOps c ops) := by
  induction ops generalizing c with
  | nil => exact hinv
  | cons op rest ih =>
    cases op with
    | addOutput name cb =>
      simp only [validOps, Bool.true_and] at hops
      exact ih _ (virtualIdsValid_addOutput c name cb hinv) hops
    | addToButton kp bt outId level mk =>
      simp only [validOps, Bool.and_eq_true, Bool.or_eq_true,
        decide_eq_true_eq] at hops
      exact ih _
        (virtualIdsValid_addToButton c kp bt outId level mk hinv hops.1)
        hops.2

/-- C8 witness: the amended invariant evaluated on the concrete schema
after `addOutput` followed by `addToButton` with the id it returned. -/
theorem c8_witness :
    virtualIdsValid (runOps opsDemoController
      [ConfigOp.addOutput "DMX:9" 0, ConfigOp.addToButton 2 3 (-1) 50 false]) :=
  c8_virtual_ids_preserved opsDemoController
    [ConfigOp.addOutput "DMX:9" 0, ConfigOp.addToButton 2 3 (-1) 50 false]
    (by unfold virtualIdsValid; decide) (by decide)

/-! ## C9 - unknown ids are complete no-ops -/

/-- C9: calling a public extension operation with an id absent from the
schema is a complete no-op: `addToButton` and `addButtonListener` with
an unknown keypad or button return the controller unchanged (and send
nothing), and `toggleOutput` with an unknown output id returns the
controller unchanged and emits no `#OUTPUT` command. -/
theorem c9_unknown_ids_noop (c : Controller) (kp bt outId level : Int)
    (mk : Bool) (tok : Nat) (out : Int)
    (hcomp : (alookup c.devices kp).bind
        (fun d => alookup d.components bt) = none)
    (hout : alookup c.outputs out = none) :
    addToButton c kp bt outId level mk = c ∧
    addButtonListener c kp bt tok = c ∧
    toggleOutput c out = (c, []) := by
  refine ⟨?_, ?_, ?_⟩
  · unfold addToButton
    cases hkp : alookup c.devices kp with
    | none => rfl
    | some dev =>
      rw [hkp] at hcomp
      simp only [Option.some_bind] at hcomp
      simp [hcomp]
  · unfold addButtonListener
    cases hkp : alookup c.devices kp with
    | none => rfl
    | some dev =>
      rw [hkp] at hcomp
      simp only [Option.some_bind] at hcomp
      simp [hcomp]
  · unfold toggleOutput
    rw [hout]

/-- C9 witness: the no-op statement evaluated on the concrete schema
(keypad 99 and output 5 are unknown there). -/
theorem c9_witness :
    addToButton opsDemoController 99 1 (-1) 50 false = opsDemoController ∧
    addButtonListener opsDemoController 99 1 0 = opsDemoController ∧
    toggleOutput opsDemoController 5 = (opsDemoController, []) :=
  c9_unknown_ids_noop opsDemoController 99 1 (-1) 50 false 0 5 rfl rfl

end RadioRA2

namespace Lutron

/-! ## C5 - which commands `closeSock` fails -/

theorem errTokens_append (a b : List Emit) :
    errTokens (a ++ b) = errTokens a ++ errTokens b := by
  unfold errTokens
  exact List.filterMap_append a b _

theorem errTokens_errEmits (l : List Command) :
    errTokens (errEmits l) = l.filterMap Command.err := by
  induction l with
  | nil => rfl
  | cons c rest ih =>
    cases hc : c.err <;>
      simp [errEmits, errTokens, List.filterMap_cons, hc, ih] <;>
      simpa [errEmits, errTokens] using ih

theorem checkDelayedQueue_no_errors (b : Bool) (q : List Command) :
    errTokens (checkDelayedQueue b q).2 = [] := by
  induction q with
  | nil => rfl
  | cons c rest ih =>
    by_cases hc : c.cmd = ""
    · cases b with
      | true => simp [checkDelayedQueue, hc, errTokens, List.filterMap_cons]
      | false =>
        simp [checkDelayedQueue, hc, errTokens, List.filterMap_cons]
        simpa [errTokens] using ih
    · simp [checkDelayedQueue, hc, errTokens, List.filterMap_cons]

theorem checkDelayedQueue_persist (b : Bool) (q : List Command)
    (cmd : Command) (hmem : cmd ∈ q) (hne : cmd.cmd ≠ "") :
    cmd ∈ (checkDelayedQueue b q).1 ∨
    Emit.resubmit cmd ∈ (checkDelayedQueue b q).2 := by
  induction q with
  | nil => cases hmem
  | cons c rest ih =>
    rcases List.mem_cons.mp hmem with rfl | hmem2
    · right
      simp [checkDelayedQueue, hne]
    · by_cases hc : c.cmd = ""
      · cases b with
        | true =>
          left
          simpa [checkDelayedQueue, hc] using hmem2
        | false =>
          rcases ih hmem2 with h1 | h1
          · left
            simpa [checkDelayedQueue, hc] using h1
          · right
            simpa [checkDelayedQueue, hc] using h1
      · left
        simpa [checkDelayedQueue, hc] using hmem2

/-- C5 counterexample: the link closes outside the on-init callback
while the user-phase delayed queue holds one command (error hook 7).
The claim says the delayed queue matching the current (user) phase is
failed; in the source, `closeSock` only ever fails the *init-phase*
delayed queue (and only when closing during initialization), so error
hook 7 is never invoked - the command is rescheduled instead. -/
theorem c5_counterexample :
    Emit.errHook 7 ∉ (closeSock closeDemoState).2 ∧
    (closeSock closeDemoState).2
      = [Emit.closedHook, Emit.resubmit ⟨"?OUTPUT,5,1", 0, some 7⟩] := by
  decide

/-- C5 (amended): when `closeSock` runs with `dontfinalize_` clear, the
error hooks invoked are exactly those of the init-phase delayed queue
(only when closing inside the on-init callback), then of the pending
queue of the current phase (in reverse order), then of the user pending
queue (in reverse order; outside the init phase this is the only pending
queue flushed). Error hooks of user-phase delayed commands are never
invoked: every such command either stays queued or is rescheduled. When
the close happens outside the init phase, the init-phase queues are left
untouched. -/
theorem c5_closeSock_failure_scope (st : LinkState)
    (hdf : st.dontfinalize = false) :
    errTokens (closeSock st).2
      = ((if st.inCallback then st.laterInit else [])
          ++ (if st.inCallback then st.pendingInit.reverse else [])
          ++ st.pendingUser.reverse).filterMap Command.err ∧
    (∀ cmd ∈ st.laterUser, cmd.cmd ≠ "" →
      cmd ∈ (closeSock st).1.laterUser ∨
      Emit.resubmit cmd ∈ (closeSock st).2) ∧
    (st.inCallback = false →
      (closeSock st).1.laterInit = st.laterInit ∧
      (closeSock st).1.pendingInit = st.pendingInit) := by
  refine ⟨?_, ?_, ?_⟩
  · have h2 : errTokens (if st.isConnected = true then [Emit.closedHook]
        else []) = [] := by
      split <;> rfl
    cases hic : st.inCallback <;>
      simp [closeSock, hdf, hic, errTokens_append, errTokens_errEmits,
        checkDelayedQueue_no_errors, h2, List.filterMap_append]
  · intro cmd hmem hne
    rcases checkDelayedQueue_persist false st.laterUser cmd hmem hne
      with h1 | h1
    · left
      simpa [closeSock, hdf] using h1
    · right
      simp [closeSock, hdf]
      tauto
  · intro hic
    constructor
    · simp [closeSock, hdf, hic]
    · simp [closeSock, hdf, hic]

/-- C5 witness: the amended statement evaluated on a link closed during
the on-init callback with one command in each of the four queues: the
invoked error hooks are exactly 13 (init delayed), 11 (init pending),
12 (user pending); hook 14 of the user delayed command is not run. -/
theorem c5_witness :
    errTokens (closeSock closeWitnessState).2
      = ((if closeWitnessState.inCallback then closeWitnessState.laterInit
          else [])
          ++ (if closeWitnessState.inCallback then
              closeWitnessState.pendingInit.reverse else [])
          ++ closeWitnessState.pendingUser.reverse).filterMap Command.err ∧
    errTokens (closeSock closeWitnessState).2 = [13, 11, 12] :=
  ⟨(c5_closeSock_failure_scope closeWitnessState rfl).1, by decide⟩

/-! ## C6 - error lines and the oldest pending query -/

/-- C6 counterexample: with pending queue `[?A, ?B]` and the received
stream `~ERROR,...`, prompt, `~OUTPUT,6,1,80.00`, prompt, the query `?B`
does not complete with its own result line: `?A`'s error hook is
scheduled for the first prompt, but at that same prompt the link also
flushes `?B` with an *empty* result, and the later `~OUTPUT,6,...` line
matches no pending query (it is treated as unsolicited). -/
theorem c6_counterexample :
    Emit.result queryB.cb "~OUTPUT,6,1,80.00"
        ∉ (processLines errorDemoState errorDemoLines).2 ∧
    (processLines errorDemoState errorDemoLines).2
      = [Emit.errHook 2, Emit.result queryB.cb ""] := by
  decide

/-- C6 (amended): an error line (`~ERROR...` or exactly `is an unknown
command`) received while a command is active removes the *oldest*
pending query and schedules its error hook for the next prompt, without
tearing the link down; at that prompt the error hook runs — and every
remaining pending query (here `?B`) is also flushed, completing with an
empty result rather than with its own later result line. -/
theorem c6_error_oldest_query (A B : Command) (st : LinkState)
    (line : String)
    (hic : st.inCallback = false) (hcmd : st.inCommand = true)
    (hp : st.pendingUser = [A, B]) (hop : st.onPrompt = [])
    (hlu : st.laterUser = [])
    (herr : startsWith "~ERROR" line = true ∨ line = "is an unknown command")
    (hB : B.cmd ≠ line) :
    (processLine st line).2 = [] ∧
    (processLine st line).1.pendingUser = [B] ∧
    (processLine st line).1.onPrompt = [A.err.map Emit.errHook] ∧
    (processLine st line).1.isConnected = st.isConnected ∧
    (processLine (processLine st line).1 PROMPT).2
      = (A.err.map Emit.errHook).toList ++ [Emit.result B.cb ""] ∧
    (processLine (processLine st line).1 PROMPT).1.pendingUser = [] ∧
    (processLine (processLine st line).1 PROMPT).1.inCommand = false ∧
    (processLine (processLine st line).1 PROMPT).1.isConnected
      = st.isConnected := by
  have hne1 : line ≠ PROMPT := by
    rcases herr with h | h
    · intro he
      rw [he] at h
      exact absurd h (by decide)
    · intro he
      rw [he] at h
      exact absurd h (by decide)
  have hpc : pendingCur st = A :: [B] := by
    simp [pendingCur, hic, hp]
  have hne2 : ¬ ((pendingCur st).getLast?.map Command.cmd = some line) := by
    rw [hpc]
    have hlast : (A :: [B]).getLast? = some B := rfl
    rw [hlast]
    simpa using hB
  have herr2 : (startsWith "~ERROR" line
      || decide (line = "is an unknown command")) = true := by
    rcases herr with h | h
    · simp [h]
    · simp [h]
  have step1 : processLine st line
      = ({ st with pendingUser := [B], onPrompt := [A.err.map Emit.errHook] }, []) := by
    unfold processLine
    rw [if_neg hne1, if_neg hne2, if_pos herr2, hpc]
    simp [setPendingCur, hic, hcmd, hop]
  rw [step1]
  rcases hAerr : A.err with _ | e <;>
    simp [processLine, pendingCur, setPendingCur, checkDelayedQueue,
      hic, hcmd, hlu, hAerr]

/-- C6 witness: the amended statement evaluated on the spec's concrete
scenario (`queryA`, `queryB`, the line `~ERROR,1`). -/
theorem c6_witness :
    (processLine errorDemoState "~ERROR,1").2 = [] ∧
    (processLine errorDemoState "~ERROR,1").1.pendingUser = [queryB] ∧
    (processLine errorDemoState "~ERROR,1").1.onPrompt
      = [queryA.err.map Emit.errHook] ∧
    (processLine errorDemoState "~ERROR,1").1.isConnected
      = errorDemoState.isConnected ∧
    (processLine (processLine errorDemoState "~ERROR,1").1 PROMPT).2
      = (queryA.err.map Emit.errHook).toList ++ [Emit.result queryB.cb ""] ∧
    (processLine (processLine errorDemoState "~ERROR,1").1 PROMPT).1.pendingUser
      = [] ∧
    (processLine (processLine errorDemoState "~ERROR,1").1 PROMPT).1.inCommand
      = false ∧
    (processLine (processLine errorDemoState "~ERROR,1").1 PROMPT).1.isConnected
      = errorDemoState.isConnected :=
  c6_error_oldest_query queryA queryB errorDemoState "~ERROR,1" rfl rfl rfl rfl
    rfl (Or.inl (by decide)) (by decide)

end Lutron

end Automation
